import Mathlib

/-!
Shallow embedding of the connection/control-lease core of the
`vector_robot` Home Assistant integration, translated from
`custom_components/vector_robot/api_override/ha_connection.py`.

The embedding covers:
* `ControlPriorityLevel` (the priority enum, whose `NONE` member carries the
  Python value `None`);
* `_ControlEventManager` (here `ControlEventManager`): the lease state with
  its three `asyncio.Event`s modelled as booleans (`set` = `true`);
* the outgoing-message generator `Connection._request_handler` (one loop
  iteration as a pure step function);
* the incoming-message handler `Connection._open_connections` together with
  `Connection._cancel_active`;
* `Connection.connect` / `Connection._connect` / `Connection._on_connected`
  as an event trace tagged with the thread each action runs on;
* `Connection._request_control` and `Connection.close`.

Python values of type `ControlPriorityLevel | None` are modelled as
`Option ControlPriorityLevel`: `none` is the Python `None`, while
`some ControlPriorityLevel.NONE` is the enum member `NONE` (an object, which
is *not* `None` under Python's `is` test).
-/

namespace VectorRobot

/-- The numeric wire values of `protocol.ControlRequest` priorities live in the
external `ha_vector.messaging.protocol` module; they are modelled here
symbolically, since no claim depends on the concrete integers. -/
inductive ProtoControlPriority where
  | OVERRIDE_BEHAVIORS
  | DEFAULT
  | RESERVE_CONTROL
deriving DecidableEq, Repr

/-- Embeds `ControlPriorityLevel` from `ha_connection.py` (lines 45-62).  The member
`NONE` has Python value `None`; the other members carry protocol constants. -/
inductive ControlPriorityLevel where
  | OVERRIDE_BEHAVIORS_PRIORITY
  | DEFAULT_PRIORITY
  | RESERVE_CONTROL
  | NONE
deriving DecidableEq, Repr

/-- Projects `member.value` of the Python enum: the protocol constant, or the Python
`None` for the `NONE` member. -/
def ControlPriorityLevel.value : ControlPriorityLevel → Option ProtoControlPriority
  | .OVERRIDE_BEHAVIORS_PRIORITY => some .OVERRIDE_BEHAVIORS
  | .DEFAULT_PRIORITY => some .DEFAULT
  | .RESERVE_CONTROL => some .RESERVE_CONTROL
  | .NONE => none

/-- The exceptions raised by the connection core (`ha_vector.exceptions`). -/
inductive VectorError where
  | behaviorControl (msg : String)
  | controlTimeout (msg : String)
  | asyncError (msg : String)
  | configuration (msg : String)
  | notFound
  | invalidVersion
  | connectionError
deriving DecidableEq, Repr

/-- State of `_ControlEventManager` (`ha_connection.py` lines 65-170).
Each `asyncio.Event` is a boolean: `true` means the event is set. -/
structure ControlEventManager where
  granted_event : Bool
  lost_event : Bool
  request_event : Bool
  has_control : Bool
  priority : Option ControlPriorityLevel
  is_shutdown : Bool
deriving DecidableEq, Repr

/-- Embeds `_ControlEventManager.__init__` (lines 78-88): fresh events (unset),
no control, the given priority (the Python default is the enum member
`ControlPriorityLevel.NONE`, i.e. `some .NONE` here), not shut down. -/
def ControlEventManager.init (priority : Option ControlPriorityLevel) : ControlEventManager :=
  { granted_event := false
    lost_event := false
    request_event := false
    has_control := false
    priority := priority
    is_shutdown := false }

/-- Embeds `_ControlEventManager.request` (lines 120-137): raises
`VectorBehaviorControlException` when the argument `is None` (the Python
`None`, not the enum member `NONE`); otherwise stores the priority and sets
the request event.  The raise happens before any mutation. -/
def ControlEventManager.request (s : ControlEventManager)
    (priority : Option ControlPriorityLevel) : Except VectorError ControlEventManager :=
  match priority with
  | none =>
      .error (.behaviorControl
        "Must provide a priority level to request. To disable control, use _ControlEventManager.release().")
  | some p => .ok { s with priority := some p, request_event := true }

/-- Embeds `_ControlEventManager.release` (lines 139-146): stores the Python `None`
as the priority and sets the request event. -/
def ControlEventManager.release (s : ControlEventManager) : ControlEventManager :=
  { s with priority := none, request_event := true }

/-- Embeds `_ControlEventManager.update` (lines 148-159): records the new control
state; on grant it sets `granted_event` and clears `lost_event`, on loss it
sets `lost_event` and clears `granted_event`. -/
def ControlEventManager.update (s : ControlEventManager) (enabled : Bool) : ControlEventManager :=
  if enabled then
    { s with has_control := enabled, granted_event := true, lost_event := false }
  else
    { s with has_control := enabled, lost_event := true, granted_event := false }

/-- Embeds `_ControlEventManager.shutdown` (lines 161-170): drops control, sets both
`granted_event` and `lost_event` (to unblock waiters), marks shutdown, and
sets the request event so the blocked `_request_handler` loop wakes up. -/
def ControlEventManager.shutdown (s : ControlEventManager) : ControlEventManager :=
  { s with
    has_control := false
    granted_event := true
    lost_event := true
    is_shutdown := true
    request_event := true }

/-- One call on a `_ControlEventManager`: the four mutating operations. -/
inductive LeaseOp where
  | request (priority : Option ControlPriorityLevel)
  | release
  | update (enabled : Bool)
  | shutdown
deriving DecidableEq, Repr

/-- Apply one `LeaseOp` to a manager state.  A `request` that raises (argument
`none`) leaves the state unchanged, matching the Python code, where the raise
precedes every assignment. -/
def stepOp (s : ControlEventManager) (op : LeaseOp) : ControlEventManager :=
  match op with
  | .request p =>
      match s.request p with
      | .ok s2 => s2
      | .error _ => s
  | .release => s.release
  | .update b => s.update b
  | .shutdown => s.shutdown

/-- Run a sequence of `LeaseOp`s left to right. -/
def runOps (s : ControlEventManager) (ops : List LeaseOp) : ControlEventManager :=
  ops.foldl stepOp s

/-- The granted/lost events mirror `has_control`: `granted_event` is set iff
control is held, `lost_event` is set iff it is not. -/
def MirrorsHeld (s : ControlEventManager) : Prop :=
  s.granted_event = s.has_control ∧ s.lost_event = !s.has_control

/-- Exactly one of the two signals `granted_event` / `lost_event` is set. -/
def ExactlyOneSignalSet (s : ControlEventManager) : Prop :=
  (s.granted_event = true ∧ s.lost_event = false) ∨
    (s.granted_event = false ∧ s.lost_event = true)

instance (s : ControlEventManager) : Decidable (MirrorsHeld s) := by
  unfold MirrorsHeld; infer_instance

instance (s : ControlEventManager) : Decidable (ExactlyOneSignalSet s) := by
  unfold ExactlyOneSignalSet; infer_instance

/-- A `BehaviorControlRequest` protobuf message, as built by
`Connection._request_handler`: either a `control_release` or a
`control_request` carrying `priority.value`. -/
inductive BehaviorControlRequest where
  | control_release
  | control_request (priority : Option ProtoControlPriority)
deriving DecidableEq, Repr

/-- Result of one iteration of the `_request_handler` loop: the manager state
after the iteration, the message yielded (if any), and whether the loop keeps
running. -/
structure HandlerStepResult where
  state : ControlEventManager
  message : Option BehaviorControlRequest
  continue_loop : Bool
deriving DecidableEq, Repr

/-- One iteration of `Connection._request_handler` (lines 476-492), entered
once `request_event.wait()` has returned (so the caller supplies a state whose
`request_event` is set): clear the event; if shut down, return (ending the
generator, hence the outgoing stream); otherwise yield one message built from
the current `priority` — a `control_release` when it is the Python `None`,
else a `control_request` carrying the member's `value`. -/
def requestHandlerStep (s : ControlEventManager) : HandlerStepResult :=
  let s2 : ControlEventManager := { s with request_event := false }
  if s2.is_shutdown then
    { state := s2, message := none, continue_loop := false }
  else
    match s2.priority with
    | none => { state := s2, message := some .control_release, continue_loop := true }
    | some p =>
        { state := s2, message := some (.control_request p.value), continue_loop := true }

/-- A future in `Connection.active_commands`
(`concurrent.futures`-style handle): `done` is `fut.done()` and `cancelled`
records that `fut.cancel()` succeeded. -/
structure PendingCommand where
  done : Bool
  cancelled : Bool
deriving DecidableEq, Repr

/-- Models `fut.cancel()` as used by `_cancel_active`: a pending future becomes
cancelled (and therefore done); a completed future is left alone (the code
only calls `cancel` when `not fut.done()`). -/
def cancelFut (c : PendingCommand) : PendingCommand :=
  if c.done then c else { c with cancelled := true, done := true }

/-- The slice of `Connection` state the incoming-message loop touches:
the `active_commands` registry and the control-event manager. -/
structure ConnState where
  active_commands : List PendingCommand
  control_events : ControlEventManager
deriving DecidableEq, Repr

/-- Embeds `Connection._cancel_active` (lines 517-521): cancel every not-done future
in `active_commands`, then reset the registry to `[]`.  The first component is
the connection state afterwards; the second returns the former registry
entries after cancellation (the futures survive for their callers). -/
def cancelActive (s : ConnState) : ConnState × List PendingCommand :=
  ({ s with active_commands := [] }, s.active_commands.map cancelFut)

/-- The tag dispatched on by `Connection._open_connections`
(`response.WhichOneof("response_type")`). -/
inductive BehaviorControlResponse where
  | control_granted_response
  | control_lost_event
  | other
deriving DecidableEq, Repr

/-- One incoming message handled by `Connection._open_connections`
(lines 494-515): a grant applies `update(True)`; a loss first runs
`_cancel_active()` and then applies `update(False)`; any other response type
is only logged. -/
def handleResponse (s : ConnState) (r : BehaviorControlResponse) : ConnState :=
  match r with
  | .control_granted_response =>
      { s with control_events := s.control_events.update true }
  | .control_lost_event =>
      let c := cancelActive s
      { c.1 with control_events := c.1.control_events.update false }
  | .other => s

/-- The loss branch of `_open_connections` with its intermediate state made
explicit: `after_cancel` is the connection state once `_cancel_active()` has
returned and before `update(False)` runs; `cancelled_commands` are the
former registry entries after cancellation; `final` is the state when the
branch completes. -/
structure LossHandlingTrace where
  after_cancel : ConnState
  cancelled_commands : List PendingCommand
  final : ConnState
deriving DecidableEq, Repr

/-- The two sequential steps of the `control_lost_event` branch. -/
def handleLossTrace (s : ConnState) : LossHandlingTrace :=
  let c := cancelActive s
  { after_cancel := c.1
    cancelled_commands := c.2
    final := { c.1 with control_events := c.1.control_events.update false } }

/-- The thread an action of the connect sequence runs on: the thread that
called `Connection.connect`, or the spawned "Connection Handler Thread". -/
inductive ThreadId where
  | caller
  | background
deriving DecidableEq, Repr

/-- The externally visible actions of `Connection.connect` /
`Connection._connect` / `Connection._on_connected`.  `waitReadySignal` is the
action of blocking on `_ready_signal` (it never occurs in the code's traces;
it is in the vocabulary so its absence can be stated). -/
inductive ConnectAction where
  | raiseAlreadyConnected
  | clearReadySignal
  | spawnBackgroundThread
  | waitReadySignal
  | returnToCaller
  | storeException (e : VectorError)
  | setReadySignal
  | reraise (e : VectorError)
  | runUntilDone
deriving DecidableEq, Repr

/-- An action together with the thread that performs it. -/
structure TracedEvent where
  thread : ThreadId
  action : ConnectAction
deriving DecidableEq, Repr

/-- The environment `Connection._connect` runs against: which establishment
steps succeed.  `behaviorControlLevel` is the Python attribute
`_behavior_control_level` (`none` is the Python `None`). -/
structure ConnectEnv where
  certFileProvided : Bool
  escapePod : Bool
  channelReadyWithinTimeout : Bool
  versionOk : Bool
  behaviorControlLevel : Option ControlPriorityLevel
  controlGrantedWithinTimeout : Bool
deriving DecidableEq, Repr

/-- Message of `VectorControlTimeoutException` raised by
`Connection._request_control` (line 287); the numeric timeout is modelled as
a natural number. -/
def timeoutMessage (timeout : Nat) : String :=
  "Surpassed timeout of " ++ toString timeout ++ "s"

/-- The exception captured by the `try` block of `Connection._connect`
(lines 346-461), following its step order: missing certificate (unless
escape-pod mode), channel-ready timeout, protocol-version handshake failure,
then — when `_behavior_control_level` is not the Python `None` — an internal
`_request_control` that can time out.  `none` means establishment succeeds. -/
def connectError (env : ConnectEnv) : Option VectorError :=
  if !env.certFileProvided && !env.escapePod then
    some (.configuration "Must provide a cert file to authenticate to Vector.")
  else if !env.channelReadyWithinTimeout then
    some .notFound
  else if !env.versionOk then
    some .invalidVersion
  else if env.behaviorControlLevel.isSome && !env.controlGrantedWithinTimeout then
    some (.controlTimeout (timeoutMessage 10))
  else
    none

/-- The events of `Connection._connect` on the background thread.  On error
the `except` block stores the exception on `_ready_signal`, and the `finally`
block sets the signal and invokes `_on_connected`, which re-raises the stored
exception — still on the background thread.  On success the signal is set,
`_on_connected` finds no stored exception, and the thread parks on the done
signal. -/
def backgroundTrace (env : ConnectEnv) : List TracedEvent :=
  match connectError env with
  | some e =>
      [⟨.background, .storeException e⟩, ⟨.background, .setReadySignal⟩,
        ⟨.background, .reraise e⟩]
  | none =>
      [⟨.background, .setReadySignal⟩, ⟨.background, .runUntilDone⟩]

/-- The events of `Connection.connect` (lines 308-325) on the calling thread:
raise `VectorAsyncException` if `_thread` is already set; otherwise clear the
ready signal, spawn the background thread and return at once — there is no
wait on `_ready_signal` and no re-raise of a captured exception here. -/
def connectCallerTrace (threadAlreadySet : Bool) : List TracedEvent :=
  if threadAlreadySet then
    [⟨.caller, .raiseAlreadyConnected⟩]
  else
    [⟨.caller, .clearReadySignal⟩, ⟨.caller, .spawnBackgroundThread⟩,
      ⟨.caller, .returnToCaller⟩]

/-- The whole trace of a `connect()` on a fresh session: the caller's actions
followed by the background thread's. -/
def connectTrace (env : ConnectEnv) : List TracedEvent :=
  connectCallerTrace false ++ backgroundTrace env

/-- Embeds `Connection._request_control` (lines 274-288), for a priority reaching it
through `request_control` (hence an enum member, never the Python `None`):
store the level, call `_control_events.request`, then await `granted_event`
up to `timeout` seconds.  `grantedWithinTimeout` says whether the peer sets
the event within the timeout; if the event is already set the wait returns at
once.  Returns the manager state afterwards and the call's outcome. -/
def requestControlModel (s : ControlEventManager) (level : ControlPriorityLevel)
    (timeout : Nat) (grantedWithinTimeout : Bool) :
    ControlEventManager × Except VectorError Unit :=
  match s.request (some level) with
  | .error e => (s, .error e)
  | .ok s2 =>
      if s2.granted_event || grantedWithinTimeout then
        (s2, .ok ())
      else
        (s2, .error (.controlTimeout (timeoutMessage timeout)))

/-- The teardown steps attempted by `Connection.close` (lines 523-539), in
source order. -/
inductive CloseStep where
  | shutdownEvents
  | cancelStreamTask
  | cancelActiveCmds
  | closeChannel
  | setDoneSignal
  | joinThread
deriving DecidableEq, Repr

/-- The internal state `close()` runs against.  The `has...` flags are the
truthiness guards in the code; `doneSignalPresent` / `threadHandleSet`
say whether `_done_signal` / `_thread` are not the Python `None` (attribute
access on `None` raises); `raisesAt` injects a failure at a given step
(channel already closed, thread already dead, and so on). -/
structure CloseEnv where
  hasControlEvents : Bool
  hasStreamTask : Bool
  hasChannel : Bool
  doneSignalPresent : Bool
  threadHandleSet : Bool
  raisesAt : CloseStep → Bool

/-- The steps `close()` attempts, honouring the `if` guards in its body. -/
def closeSteps (env : CloseEnv) : List CloseStep :=
  (if env.hasControlEvents then [CloseStep.shutdownEvents] else []) ++
    (if env.hasStreamTask then [CloseStep.cancelStreamTask] else []) ++
    [CloseStep.cancelActiveCmds] ++
    (if env.hasChannel then [CloseStep.closeChannel] else []) ++
    [CloseStep.setDoneSignal, CloseStep.joinThread]

/-- Whether a given step raises in this environment: injected failures, plus
the `AttributeError`s from touching `_done_signal` / `_thread` when they are
the Python `None`. -/
def closeStepRaises (env : CloseEnv) : CloseStep → Bool
  | .setDoneSignal => !env.doneSignalPresent || env.raisesAt .setDoneSignal
  | .joinThread => !env.threadHandleSet || env.raisesAt .joinThread
  | s => env.raisesAt s

/-- Run a list of teardown steps under the `try` block: execution stops at the
first step that raises.  Returns the steps that ran and whether an exception
escaped the `try` body (to be caught by the bare `except`). -/
def runCloseSteps (raises : CloseStep → Bool) : List CloseStep → List CloseStep × Bool
  | [] => ([], false)
  | s :: rest =>
      if raises s then ([s], true)
      else
        let r := runCloseSteps raises rest
        (s :: r.1, r.2)

/-- Outcome of `Connection.close`: what it raises to its caller, the value of
`_thread` afterwards, whether the bare `except` swallowed an exception, and
the steps that ran. -/
structure CloseResult where
  raised : Option VectorError
  threadHandle : Option Unit
  swallowed : Bool
  executed : List CloseStep
deriving DecidableEq, Repr

/-- Embeds `Connection.close` (lines 523-539): run the guarded teardown steps inside
`try`; the bare `except: pass` turns any exception into `swallowed`; the
`finally` clears `_thread` unconditionally; nothing propagates. -/
def close (env : CloseEnv) : CloseResult :=
  let r := runCloseSteps (closeStepRaises env) (closeSteps env)
  { raised := none, threadHandle := none, swallowed := r.2, executed := r.1 }

/-- The guard at the top of `Connection.connect` (lines 311-314): raise
`VectorAsyncException` when `_thread` is still set. -/
def connectPrecheck (threadHandle : Option Unit) : Except VectorError Unit :=
  if threadHandle.isSome then
    .error (.asyncError "Repeated connections made to open Connection.")
  else
    .ok ()

/-- A freshly constructed manager that has just been granted control. -/
def afterGrant : ControlEventManager :=
  stepOp (ControlEventManager.init (some .NONE)) (.update true)

/-- A connect environment in which the protocol-version handshake fails. -/
def envVersionFail : ConnectEnv :=
  { certFileProvided := true
    escapePod := false
    channelReadyWithinTimeout := true
    versionOk := false
    behaviorControlLevel := none
    controlGrantedWithinTimeout := true }

/-- A manager state that wakes the `_request_handler` loop with a pending
default-priority request. -/
def handlerExampleState : ControlEventManager :=
  { granted_event := false
    lost_event := false
    request_event := true
    has_control := false
    priority := some .DEFAULT_PRIORITY
    is_shutdown := false }

/-- A connection holding control, with one pending and one completed command
in its registry. -/
def exampleConnState : ConnState :=
  { active_commands :=
      [{ done := false, cancelled := false }, { done := true, cancelled := false }]
    control_events :=
      { granted_event := true
        lost_event := false
        request_event := false
        has_control := true
        priority := some .DEFAULT_PRIORITY
        is_shutdown := false } }

/-- A teardown environment with everything present and a failure injected at
the channel-close step. -/
def exampleCloseEnv : CloseEnv :=
  { hasControlEvents := true
    hasStreamTask := true
    hasChannel := true
    doneSignalPresent := true
    threadHandleSet := true
    raisesAt := fun s => s == CloseStep.closeChannel }

/- ------------------------------------------------------------------ -/
/- Helper lemmas -/
/- ------------------------------------------------------------------ -/

theorem mirrorsHeld_exactlyOne (s : ControlEventManager) (h : MirrorsHeld s) :
    ExactlyOneSignalSet s := by
  rcases h with ⟨h1, h2⟩
  show (s.granted_event = true ∧ s.lost_event = false) ∨
    (s.granted_event = false ∧ s.lost_event = true)
  cases hcv : s.has_control with
  | false => rw [hcv] at h1 h2; exact Or.inr ⟨h1, h2⟩
  | true => rw [hcv] at h1 h2; exact Or.inl ⟨h1, h2⟩

theorem mirrors_stepOp (s : ControlEventManager) (op : LeaseOp)
    (hop : op ≠ LeaseOp.shutdown) (h : MirrorsHeld s) : MirrorsHeld (stepOp s op) := by
  cases op with
  | request p =>
      cases p with
      | none => exact h
      | some q => exact h
  | release => exact h
  | update b => cases b with
      | false => exact ⟨rfl, rfl⟩
      | true => exact ⟨rfl, rfl⟩
  | shutdown => exact absurd rfl hop

theorem mirrors_runOps (ops : List LeaseOp) :
    ∀ s : ControlEventManager, LeaseOp.shutdown ∉ ops → MirrorsHeld s →
      MirrorsHeld (runOps s ops) := by
  induction ops with
  | nil => intro s _ h; exact h
  | cons op rest ih =>
      intro s hsd h
      have hop : op ≠ LeaseOp.shutdown := by
        intro he; subst he; exact hsd (List.mem_cons_self _ _)
      have hrest : LeaseOp.shutdown ∉ rest := fun hm => hsd (List.mem_cons_of_mem _ hm)
      exact ih (stepOp s op) hrest (mirrors_stepOp s op hop h)

theorem runOps_mirrors_of_update (ops : List LeaseOp) :
    ∀ s : ControlEventManager, (∃ b, LeaseOp.update b ∈ ops) →
      LeaseOp.shutdown ∉ ops → MirrorsHeld (runOps s ops) := by
  induction ops with
  | nil =>
      intro s hupd _
      obtain ⟨b, hb⟩ := hupd
      cases hb
  | cons op rest ih =>
      intro s hupd hsd
      have hrest : LeaseOp.shutdown ∉ rest := fun hm => hsd (List.mem_cons_of_mem _ hm)
      show MirrorsHeld (runOps (stepOp s op) rest)
      by_cases hr : ∃ b, LeaseOp.update b ∈ rest
      · exact ih (stepOp s op) hr hrest
      · obtain ⟨b, hb⟩ := hupd
        rcases List.mem_cons.mp hb with hb1 | hb2
        · have hop : op = LeaseOp.update b := hb1.symm
          subst hop
          apply mirrors_runOps rest (stepOp s (LeaseOp.update b)) hrest
          cases b with
          | false => exact ⟨rfl, rfl⟩
          | true => exact ⟨rfl, rfl⟩
        · exact absurd ⟨b, hb2⟩ hr

/- ------------------------------------------------------------------ -/
/- Claim theorems -/
/- ------------------------------------------------------------------ -/

/-- Claim C1, counterexample: `update` is not the only operation that changes
`held`.  From a freshly constructed manager, `update True` sets
`has_control`, and a subsequent `shutdown()` — not an `update` — flips it
back to `false` (lines 166). -/
theorem c1_counterexample :
    afterGrant.has_control = true ∧
      (stepOp afterGrant LeaseOp.shutdown).has_control = false := by decide

/-- Claim C1, amended: immediately after `update b` the field `has_control`
equals `b`, and `request` / `release` never change `has_control`; but
`shutdown` also writes it (unconditionally to `false`), so `update` and
`shutdown` are the two operations that change `held`. -/
theorem c1_held_follows_update (s : ControlEventManager) (b : Bool)
    (p : Option ControlPriorityLevel) :
    (stepOp s (LeaseOp.update b)).has_control = b ∧
    (stepOp s (LeaseOp.request p)).has_control = s.has_control ∧
    (stepOp s LeaseOp.release).has_control = s.has_control ∧
    (stepOp s LeaseOp.shutdown).has_control = false := by
  refine ⟨?_, ?_, rfl, rfl⟩
  · cases b with
    | false => rfl
    | true => rfl
  · cases p with
    | none => rfl
    | some q => rfl

/-- Claim C2, counterexample: "exactly one of granted/lost is set" fails in
reachable states: at construction (empty call sequence) neither event is
set, and after `shutdown()` both are set. -/
theorem c2_counterexample :
    ¬ ExactlyOneSignalSet (ControlEventManager.init (some .NONE)) ∧
    ¬ ExactlyOneSignalSet
        (runOps (ControlEventManager.init (some .NONE)) [LeaseOp.shutdown]) := by
  decide

/-- Claim C2, amended: in every state reached from construction by a sequence
of `request` / `release` / `update` calls that contains at least one `update`
and no `shutdown`, exactly one of `granted_event` / `lost_event` is set, and
`granted_event` is set iff `has_control` is true.  (Before the first
`update` both events are clear; after `shutdown` both are set.) -/
theorem c2_signals_mirror_held (p : Option ControlPriorityLevel) (ops : List LeaseOp)
    (hupd : ∃ b, LeaseOp.update b ∈ ops) (hsd : LeaseOp.shutdown ∉ ops) :
    ExactlyOneSignalSet (runOps (ControlEventManager.init p) ops) ∧
    (runOps (ControlEventManager.init p) ops).granted_event =
      (runOps (ControlEventManager.init p) ops).has_control := by
  have h := runOps_mirrors_of_update ops (ControlEventManager.init p) hupd hsd
  exact ⟨mirrorsHeld_exactlyOne _ h, h.1⟩

/-- Witness for the amended claim C2 at the concrete run
`[update true]` from a fresh manager. -/
theorem c2_signals_mirror_held_witness :
    ExactlyOneSignalSet
        (runOps (ControlEventManager.init (some .NONE)) [LeaseOp.update true]) ∧
    (runOps (ControlEventManager.init (some .NONE)) [LeaseOp.update true]).granted_event =
      (runOps (ControlEventManager.init (some .NONE)) [LeaseOp.update true]).has_control :=
  c2_signals_mirror_held (some .NONE) [LeaseOp.update true] ⟨true, by decide⟩ (by decide)

/-- Claim C8, counterexample: `request(ControlPriorityLevel.NONE)` does not
raise.  The guard at line 131 tests `priority is None` against the Python
`None`, and the enum member `NONE` is an object, so it passes the guard and
is stored as the requested priority. -/
theorem c8_counterexample :
    (ControlEventManager.init (some .NONE)).request (some ControlPriorityLevel.NONE) =
      .ok { granted_event := false
            lost_event := false
            request_event := true
            has_control := false
            priority := some .NONE
            is_shutdown := false } := rfl

/-- Claim C8, amended: `request` fails with `VectorBehaviorControlException`
only when its argument is the Python `None`; every enum member — including
the sentinel `ControlPriorityLevel.NONE` — is accepted: the requested
priority is stored and `request_event` is set, with no blocking (the
operation is a pure state change). -/
theorem c8_request_rejects_only_python_none (s : ControlEventManager)
    (p : ControlPriorityLevel) :
    (∃ msg, s.request none = .error (.behaviorControl msg)) ∧
    s.request (some p) = .ok { s with priority := some p, request_event := true } :=
  ⟨⟨_, rfl⟩, rfl⟩

/-- Claim C9: `shutdown()` is idempotent — a second call leaves the state
identical to the first, with `is_shutdown = true`, `has_control = false`,
both `granted_event` and `lost_event` set, and `request_event` set.  The
operation is a straight-line sequence of assignments, so neither call
raises (it is a total function here). -/
theorem c9_shutdown_idempotent (s : ControlEventManager) :
    s.shutdown.shutdown = s.shutdown ∧
    s.shutdown.is_shutdown = true ∧
    s.shutdown.has_control = false ∧
    s.shutdown.granted_event = true ∧
    s.shutdown.lost_event = true ∧
    s.shutdown.request_event = true :=
  ⟨rfl, rfl, rfl, rfl, rfl, rfl⟩

/-- Claim C7: one iteration of the outgoing loop `_request_handler`, entered
with `request_event` set, clears the event; if `is_shutdown` it yields no
message and terminates the loop; otherwise it yields exactly one message —
`control_release` when the stored priority is the Python `None`, else
`control_request` with that priority's `value` — so the message reflects the
latest stored priority, one message per consumed signal. -/
theorem c7_request_handler_step (s : ControlEventManager)
    (h : s.request_event = true) :
    (requestHandlerStep s).state = { s with request_event := false } ∧
    (s.is_shutdown = true →
      (requestHandlerStep s).message = none ∧
        (requestHandlerStep s).continue_loop = false) ∧
    (s.is_shutdown = false →
      (requestHandlerStep s).continue_loop = true ∧
        (requestHandlerStep s).message =
          some (match s.priority with
            | none => BehaviorControlRequest.control_release
            | some p => BehaviorControlRequest.control_request p.value)) := by
  clear h
  obtain ⟨ge, le, re, hc, pr, sd⟩ := s
  cases sd <;> cases pr <;> simp [requestHandlerStep]

/-- Witness for claim C7 at a concrete manager state with a pending
default-priority request. -/
theorem c7_request_handler_step_witness :
    (requestHandlerStep handlerExampleState).state =
      { handlerExampleState with request_event := false } ∧
    (handlerExampleState.is_shutdown = true →
      (requestHandlerStep handlerExampleState).message = none ∧
        (requestHandlerStep handlerExampleState).continue_loop = false) ∧
    (handlerExampleState.is_shutdown = false →
      (requestHandlerStep handlerExampleState).continue_loop = true ∧
        (requestHandlerStep handlerExampleState).message =
          some (match handlerExampleState.priority with
            | none => BehaviorControlRequest.control_release
            | some p => BehaviorControlRequest.control_request p.value)) :=
  c7_request_handler_step handlerExampleState rfl

/-- Claim C3: the `control_lost_event` branch of `_open_connections` runs
`_cancel_active()` strictly before `update(False)`.  At the intermediate
point every formerly pending command has been cancelled and the registry is
empty, while the lease state is still untouched; only then does `held` flip
to `false`, and the traced two-step branch computes exactly what the handler
does. -/
theorem c3_loss_cancels_before_flip (s : ConnState) :
    (handleLossTrace s).after_cancel.active_commands = [] ∧
    (handleLossTrace s).after_cancel.control_events = s.control_events ∧
    (handleLossTrace s).cancelled_commands = s.active_commands.map cancelFut ∧
    (∀ c, c ∈ s.active_commands → c.done = false →
      (cancelFut c).cancelled = true ∧ (cancelFut c).done = true) ∧
    (handleLossTrace s).final.control_events.has_control = false ∧
    (handleLossTrace s).final = handleResponse s BehaviorControlResponse.control_lost_event := by
  refine ⟨rfl, rfl, rfl, ?_, rfl, rfl⟩
  intro c _ hdone
  simp [cancelFut, hdone]

/-- Witness for claim C3 at a concrete connection holding control with one
pending and one completed command. -/
theorem c3_loss_cancels_before_flip_witness :
    (handleLossTrace exampleConnState).after_cancel.active_commands = [] ∧
    (handleLossTrace exampleConnState).after_cancel.control_events =
      exampleConnState.control_events ∧
    (handleLossTrace exampleConnState).cancelled_commands =
      exampleConnState.active_commands.map cancelFut ∧
    (∀ c, c ∈ exampleConnState.active_commands → c.done = false →
      (cancelFut c).cancelled = true ∧ (cancelFut c).done = true) ∧
    (handleLossTrace exampleConnState).final.control_events.has_control = false ∧
    (handleLossTrace exampleConnState).final =
      handleResponse exampleConnState BehaviorControlResponse.control_lost_event :=
  c3_loss_cancels_before_flip exampleConnState

/-- Claim C5: when the peer never sets the granted signal within the timeout,
`_request_control` fails with `VectorControlTimeoutException` whose message
names the timeout duration, and `held` stays `false`. -/
theorem c5_request_control_timeout (s : ControlEventManager)
    (level : ControlPriorityLevel) (timeout : Nat)
    (hg : s.granted_event = false) (hc : s.has_control = false) :
    (requestControlModel s level timeout false).2 =
      .error (.controlTimeout ("Surpassed timeout of " ++ toString timeout ++ "s")) ∧
    (requestControlModel s level timeout false).1.has_control = false := by
  simp [requestControlModel, ControlEventManager.request, timeoutMessage, hg, hc]

/-- Witness for claim C5: a fresh manager, override priority, a 3-second
timeout, and a peer that never grants. -/
theorem c5_request_control_timeout_witness :
    (requestControlModel (ControlEventManager.init (some .NONE))
        ControlPriorityLevel.OVERRIDE_BEHAVIORS_PRIORITY 3 false).2 =
      .error (.controlTimeout ("Surpassed timeout of " ++ toString 3 ++ "s")) ∧
    (requestControlModel (ControlEventManager.init (some .NONE))
        ControlPriorityLevel.OVERRIDE_BEHAVIORS_PRIORITY 3 false).1.has_control = false :=
  c5_request_control_timeout (ControlEventManager.init (some .NONE))
    ControlPriorityLevel.OVERRIDE_BEHAVIORS_PRIORITY 3 rfl rfl

/-- Claim C4, counterexample: with a failing version handshake, the one
re-raise of the captured exception happens on the background thread, and the
calling thread's `connect` neither waits on the readiness signal nor
re-raises anything — refuting "re-raised on the thread that called connect"
and "connect blocks that calling thread until the readiness signal fires". -/
theorem c4_counterexample :
    ((connectTrace envVersionFail).filter
        (fun ev => ev.action == ConnectAction.reraise VectorError.invalidVersion)).map
        TracedEvent.thread = [ThreadId.background] ∧
    (connectCallerTrace false).all
      (fun ev => !(ev.action == ConnectAction.waitReadySignal) &&
        !(ev.action == ConnectAction.reraise VectorError.invalidVersion)) = true := by
  decide

/-- Claim C4, amended: any exception raised during connection establishment
is captured on the background thread, stored on the readiness signal, and —
after the readiness signal is set — re-raised by the `_on_connected`
callback, which runs on the background thread; `connect` itself only clears
the signal, spawns the thread, and returns immediately, never blocking on
the readiness signal and never raising the captured error. -/
theorem c4_errors_reraised_on_background (env : ConnectEnv) (e : VectorError)
    (he : connectError env = some e) :
    backgroundTrace env =
      [⟨.background, .storeException e⟩, ⟨.background, .setReadySignal⟩,
        ⟨.background, .reraise e⟩] ∧
    connectCallerTrace false =
      [⟨.caller, .clearReadySignal⟩, ⟨.caller, .spawnBackgroundThread⟩,
        ⟨.caller, .returnToCaller⟩] := by
  unfold backgroundTrace
  rw [he]
  exact ⟨rfl, rfl⟩

/-- Witness for the amended claim C4 at the failing-handshake environment. -/
theorem c4_errors_reraised_on_background_witness :
    backgroundTrace envVersionFail =
      [⟨.background, .storeException VectorError.invalidVersion⟩,
        ⟨.background, .setReadySignal⟩,
        ⟨.background, .reraise VectorError.invalidVersion⟩] ∧
    connectCallerTrace false =
      [⟨.caller, .clearReadySignal⟩, ⟨.caller, .spawnBackgroundThread⟩,
        ⟨.caller, .returnToCaller⟩] :=
  c4_errors_reraised_on_background envVersionFail VectorError.invalidVersion rfl

/-- Claim C6: `close()` never raises.  For every internal state — control
events present or not, stream task or channel present or not, done signal or
thread handle possibly `None`, and any teardown step throwing — the bare
`except: pass` swallows the exception and `close` returns normally. -/
theorem c6_close_never_raises (env : CloseEnv) :
    (close env).raised = none := rfl

/-- Claim C10: the `finally` block of `close()` clears `_thread`
unconditionally — also on every swallowed-exception path — so the
`AlreadyConnected` guard at the top of a subsequent `connect()` passes. -/
theorem c10_thread_cleared (env : CloseEnv) :
    (close env).threadHandle = none ∧
    connectPrecheck (close env).threadHandle = .ok () :=
  ⟨rfl, rfl⟩

/-- Witness for the amended claim C1 at a fresh manager, `b = true`,
`p = none`. -/
theorem c1_held_follows_update_witness :
    (stepOp (ControlEventManager.init (some .NONE)) (LeaseOp.update true)).has_control = true ∧
    (stepOp (ControlEventManager.init (some .NONE)) (LeaseOp.request none)).has_control =
      (ControlEventManager.init (some .NONE)).has_control ∧
    (stepOp (ControlEventManager.init (some .NONE)) LeaseOp.release).has_control =
      (ControlEventManager.init (some .NONE)).has_control ∧
    (stepOp (ControlEventManager.init (some .NONE)) LeaseOp.shutdown).has_control = false :=
  c1_held_follows_update (ControlEventManager.init (some .NONE)) true none

/-- Witness for the amended claim C8 at a fresh manager and the default
priority. -/
theorem c8_request_rejects_only_python_none_witness :
    (∃ msg, (ControlEventManager.init (some .NONE)).request none =
      .error (.behaviorControl msg)) ∧
    (ControlEventManager.init (some .NONE)).request
        (some ControlPriorityLevel.DEFAULT_PRIORITY) =
      .ok { ControlEventManager.init (some .NONE) with
            priority := some ControlPriorityLevel.DEFAULT_PRIORITY
            request_event := true } :=
  c8_request_rejects_only_python_none (ControlEventManager.init (some .NONE))
    ControlPriorityLevel.DEFAULT_PRIORITY

/-- Witness for claim C9 at a fresh manager. -/
theorem c9_shutdown_idempotent_witness :
    (ControlEventManager.init (some .NONE)).shutdown.shutdown =
      (ControlEventManager.init (some .NONE)).shutdown ∧
    (ControlEventManager.init (some .NONE)).shutdown.is_shutdown = true ∧
    (ControlEventManager.init (some .NONE)).shutdown.has_control = false ∧
    (ControlEventManager.init (some .NONE)).shutdown.granted_event = true ∧
    (ControlEventManager.init (some .NONE)).shutdown.lost_event = true ∧
    (ControlEventManager.init (some .NONE)).shutdown.request_event = true :=
  c9_shutdown_idempotent (ControlEventManager.init (some .NONE))

/-- Witness for claim C6 at a fully populated session whose channel-close
step throws. -/
theorem c6_close_never_raises_witness :
    (close exampleCloseEnv).raised = none :=
  c6_close_never_raises exampleCloseEnv

/-- Witness for claim C10 at a fully populated session whose channel-close
step throws. -/
theorem c10_thread_cleared_witness :
    (close exampleCloseEnv).threadHandle = none ∧
    connectPrecheck (close exampleCloseEnv).threadHandle = .ok () :=
  c10_thread_cleared exampleCloseEnv

end VectorRobot
